import Mathlib

/-!
Verification development for the cumplo-scraper filter-evaluation core.

The definitions below are shallow embeddings of the Python sources:
  * `src/cumplo_spotter/models/filter.py`          — the 14 filter predicates
  * `src/cumplo_spotter/models/cumplo/funding_request.py` — normalization
  * `src/integrations/cumplo.py`                   — list-level filtering and enrichment
  * `src/routers/funding_requests.py`, `src/cumplo_spotter/routers/funding_requests/public.py`
                                                   — multi-configuration dispatch

Python `Decimal` values are embedded as `ℚ`, nullable fields as `Option`,
and code that can raise as `Option`-returning functions (`none` = raised).
-/

namespace CumploSpotter

/-- Canonical credit-type taxonomy (`cumplo_common.models.credit.CreditType`,
the 4 values named in the spec). -/
inductive CreditType where
  | state_subsidy
  | working_capital
  | bullet_loan
  | factoring
deriving DecidableEq, Repr

/-- Duration unit of a funding request (`DurationUnit` in
`cumplo_spotter/models/cumplo/request_duration.py`; the spec allows DAY and MONTH). -/
inductive DurationUnit where
  | day
  | month
deriving DecidableEq, Repr

/-- Duration of a funding request: a (unit, value) pair. -/
structure RequestDuration where
  unit : DurationUnit
  value : ℤ
deriving DecidableEq, Repr

/-- Modelled from the spec: the `portfolio` summary carried by Borrower and
Debtor (§3) — `total_requests`, `total_amount`, nullable `paid_in_time`.
The class itself lives in the external `cumplo_common` package, not under src/. -/
structure Portfolio where
  total_requests : ℕ
  total_amount : ℤ
  paid_in_time : Option ℚ
deriving DecidableEq, Repr

/-- Modelled from the spec: the Borrower entity (§3) — a ternary `dicom` flag,
a nullable `average_days_delinquent`, and a portfolio summary. The class lives
in the external `cumplo_common` package, not under src/. -/
structure Borrower where
  dicom : Option Bool
  average_days_delinquent : Option ℚ
  portfolio : Portfolio
deriving DecidableEq, Repr

/-- Modelled from the spec: the Debtor entity (§3) — a ternary `dicom` flag and
a portfolio summary. The class lives in the external `cumplo_common` package. -/
structure Debtor where
  dicom : Option Bool
  portfolio : Portfolio
deriving DecidableEq, Repr

/-- Modelled from the spec: the typed FundingRequest of §3 (the
`cumplo_common.models.funding_request.FundingRequest` consumed by the filters,
which is not under src/). It carries one borrower and a list of debtors; §3
defines no singular `debtor` accessor. Only the fields the filters read are
embedded. -/
structure FundingRequest where
  id : ℕ
  score : ℚ
  irr : ℚ
  monthly_profit_rate : ℚ
  maximum_investment : ℤ
  credit_type : CreditType
  duration : RequestDuration
  funded_percentage : ℚ
  borrower : Borrower
  debtors : List Debtor
deriving DecidableEq, Repr

/-- Modelled from the spec: the FilterConfiguration of §3 — a set of
user-chosen thresholds, all optional (absence means no constraint), plus the
two ignore-DICOM toggles. The external `cumplo_common` class groups the
borrower- and debtor-specific thresholds into sub-objects
(`configuration.borrower.…`, `configuration.debtor.…`); the spec lists them
flat, and we embed them flat: a `none` threshold covers both "sub-object
absent" and "field unset", which the filter code treats identically
(both are falsy, hence unconditional pass). -/
structure FilterConfiguration where
  target_credit_types : Option (List CreditType)
  minimum_investment_amount : Option ℤ
  minimum_score : Option ℚ
  minimum_monthly_profit_rate : Option ℚ
  minimum_irr : Option ℚ
  minimum_duration : Option ℤ
  maximum_duration : Option ℤ
  minimum_requested_credits : Option ℕ
  minimum_requested_amount : Option ℤ
  maximum_average_days_delinquent : Option ℚ
  borrower_minimum_paid_in_time : Option ℚ
  debtor_minimum_paid_in_time : Option ℚ
  ignore_borrower_dicom : Bool
  ignore_debtor_dicom : Bool
deriving DecidableEq, Repr

/-- The configuration with every threshold unset and every toggle unset. -/
def configUnset : FilterConfiguration :=
  ⟨none, none, none, none, none, none, none, none, none, none, none, none, false, false⟩

/-! ## The 14 filter predicates (`src/cumplo_spotter/models/filter.py`)

Each `apply` takes the configuration and a funding request, exactly as the
Python `Filter` subclasses do (the configuration is stored at filter
construction; we pass it as the first argument). Python falsiness checks
(`if not x`) on an optional numeric field are embedded as a match returning
`true` for `none` and for a value equal to 0. -/

/-- `CreditTypeFilter.apply`: pass when `target_credit_types` is `None`,
else when the request's credit type is in the configured set. -/
def creditType_apply (c : FilterConfiguration) (r : FundingRequest) : Bool :=
  match c.target_credit_types with
  | none => true
  | some ts => decide (r.credit_type ∈ ts)

/-- `MinimumInvestmentFilter.apply`. -/
def minimumInvestment_apply (c : FilterConfiguration) (r : FundingRequest) : Bool :=
  match c.minimum_investment_amount with
  | none => true
  | some m => decide (m ≤ r.maximum_investment)

/-- `MinimumScoreFilter.apply`. -/
def minimumScore_apply (c : FilterConfiguration) (r : FundingRequest) : Bool :=
  match c.minimum_score with
  | none => true
  | some m => decide (m ≤ r.score)

/-- `MinimumMonthlyProfitFilter.apply`. -/
def minimumMonthlyProfit_apply (c : FilterConfiguration) (r : FundingRequest) : Bool :=
  match c.minimum_monthly_profit_rate with
  | none => true
  | some m => decide (m ≤ r.monthly_profit_rate)

/-- `MinimumIRRFilter.apply`. -/
def minimumIRR_apply (c : FilterConfiguration) (r : FundingRequest) : Bool :=
  match c.minimum_irr with
  | none => true
  | some m => decide (m ≤ r.irr)

/-- Normalized duration in days: `value` when the unit is DAY, else `value * 30`
(the expression inlined in `MinimumDurationFilter` and `MaximumDurationFilter`). -/
def durationDays (r : FundingRequest) : ℤ :=
  match r.duration.unit with
  | .day => r.duration.value
  | .month => r.duration.value * 30

/-- `MinimumDurationFilter.apply`. -/
def minimumDuration_apply (c : FilterConfiguration) (r : FundingRequest) : Bool :=
  match c.minimum_duration with
  | none => true
  | some m => decide (m ≤ durationDays r)

/-- `MaximumDurationFilter.apply`. -/
def maximumDuration_apply (c : FilterConfiguration) (r : FundingRequest) : Bool :=
  match c.maximum_duration with
  | none => true
  | some m => decide (durationDays r ≤ m)

/-- `DebtorDicomFilter.apply`: pass when the ignore toggle is set, else when no
debtor has a truthy `dicom` flag (`some true`; `some false` and `none` are
falsy in Python). -/
def debtorDicom_apply (c : FilterConfiguration) (r : FundingRequest) : Bool :=
  if c.ignore_debtor_dicom then true
  else !(r.debtors.any fun d => d.dicom == some true)

/-- `BorrowerDicomFilter.apply`: pass when the ignore toggle is set, else when
the borrower's `dicom` flag is not truthy. -/
def borrowerDicom_apply (c : FilterConfiguration) (r : FundingRequest) : Bool :=
  if c.ignore_borrower_dicom then true
  else !(r.borrower.dicom == some true)

/-- `MinimumCreditsRequestedFilter.apply` (falsy check on the threshold:
`None` and 0 both pass unconditionally). -/
def minimumCreditsRequested_apply (c : FilterConfiguration) (r : FundingRequest) : Bool :=
  match c.minimum_requested_credits with
  | none => true
  | some m => if m = 0 then true else decide (m ≤ r.borrower.portfolio.total_requests)

/-- `MinimumAmountRequestedFilter.apply` (falsy check on the threshold). -/
def minimumAmountRequested_apply (c : FilterConfiguration) (r : FundingRequest) : Bool :=
  match c.minimum_requested_amount with
  | none => true
  | some m => if m = 0 then true else decide (m ≤ r.borrower.portfolio.total_amount)

/-- `BorrowerMaximumAverageDaysDelinquentFilter.apply`: unconditional pass for
an unset/zero threshold; the walrus truthiness test on the request's
`average_days_delinquent` makes `None` and 0 pass as well. -/
def borrowerMaximumAverageDaysDelinquent_apply
    (c : FilterConfiguration) (r : FundingRequest) : Bool :=
  match c.maximum_average_days_delinquent with
  | none => true
  | some m =>
    if m = 0 then true
    else
      match r.borrower.average_days_delinquent with
      | none => true
      | some x => if x = 0 then true else decide (x ≤ m)

/-- `BorrowerMinimumPaidInTimeFilter.apply`: unconditional pass for an
unset/zero threshold, for a borrower portfolio with zero `total_requests`, and
for a falsy (`None`/0) `paid_in_time`. -/
def borrowerMinimumPaidInTime_apply (c : FilterConfiguration) (r : FundingRequest) : Bool :=
  match c.borrower_minimum_paid_in_time with
  | none => true
  | some m =>
    if m = 0 then true
    else if r.borrower.portfolio.total_requests = 0 then true
    else
      match r.borrower.portfolio.paid_in_time with
      | none => true
      | some p => if p = 0 then true else decide (m ≤ p)

/-- `DebtorMinimumPaidInTimeFilter.apply` continued past the singular-debtor
access, parameterized by the value that access would yield for
`funding_request.debtor.portfolio.total_requests`: the guard on it, then the
`any` over the debtors with non-null `paid_in_time`. -/
def debtorMinimumPaidInTime_core (c : FilterConfiguration)
    (debtor_total_requests : ℕ) (r : FundingRequest) : Bool :=
  match c.debtor_minimum_paid_in_time with
  | none => true
  | some m =>
    if m = 0 then true
    else if debtor_total_requests = 0 then true
    else
      r.debtors.any fun d =>
        match d.portfolio.paid_in_time with
        | none => false
        | some p => decide (m ≤ p)

/-- `DebtorMinimumPaidInTimeFilter.apply`. Modelled from the spec: once the
threshold is truthy, the Python body reads `funding_request.debtor` (singular),
but the §3 FundingRequest carries only the list `debtors` and defines no
singular `debtor` attribute, so the access has no value to produce; we embed
the resulting `AttributeError` as `none`. -/
def debtorMinimumPaidInTime_apply (c : FilterConfiguration) (r : FundingRequest) :
    Option Bool :=
  match c.debtor_minimum_paid_in_time with
  | none => some true
  | some m => if m = 0 then some true else none

/-- Modelled from the spec: a total resolution of `DebtorMinimumPaidInTimeFilter`
following the §4.2 catalog row, reading the singular debtor's
`total_requests` off the first element of the (per §3 non-empty) debtors list. -/
def debtorMinimumPaidInTime_spec (c : FilterConfiguration) (r : FundingRequest) : Bool :=
  debtorMinimumPaidInTime_core c
    (match r.debtors with
     | [] => 0
     | d :: _ => d.portfolio.total_requests) r

/-! ## List-level evaluation (`src/integrations/cumplo.py`)

`_filter_funding_requests(funding_requests, *filters)` keeps the requests on
which every filter's `apply` returns true:
`list(filter(lambda x: all(filter_.apply(x) for filter_ in filters), funding_requests))`. -/

/-- `_filter_funding_requests` with total (boolean-returning) filters, exactly
the Python list/filter/all pipeline. -/
def filter_funding_requests (filters : List (FundingRequest → Bool))
    (funding_requests : List FundingRequest) : List FundingRequest :=
  funding_requests.filter fun x => filters.all fun f => f x

/-- Python's `all(filter_.apply(x) for filter_ in filters)` over error-aware
filters: evaluated left to right, short-circuiting at the first `False`, and a
raised error (`none`) before that propagates. -/
def apply_all (filters : List (FundingRequest → Option Bool)) (x : FundingRequest) :
    Option Bool :=
  match filters with
  | [] => some true
  | f :: fs =>
    match f x with
    | none => none
    | some false => some false
    | some true => apply_all fs x

/-- `_filter_funding_requests` over error-aware filters: the kept-check runs on
each element in order and a raised error aborts the whole evaluation. -/
def filter_funding_requests_checked (filters : List (FundingRequest → Option Bool))
    (funding_requests : List FundingRequest) : Option (List FundingRequest) :=
  match funding_requests with
  | [] => some []
  | r :: rest =>
    match apply_all filters r with
    | none => none
    | some b =>
      match filter_funding_requests_checked filters rest with
      | none => none
      | some l => some (if b then r :: l else l)

/-- Modelled from the spec: the full 14-filter catalog built from one
configuration (the construction lives in `cumplo_spotter/business/funding_requests.py`,
which is not under src/; the spec's §4.2 table fixes the catalog). Listed in
the catalog order; the 13 total predicates are lifted with `some`, the
debtor paid-in-time filter keeps its error-aware embedding. -/
def allFilters (c : FilterConfiguration) : List (FundingRequest → Option Bool) :=
  [ fun r => some (creditType_apply c r)
  , fun r => some (minimumInvestment_apply c r)
  , fun r => some (minimumScore_apply c r)
  , fun r => some (minimumMonthlyProfit_apply c r)
  , fun r => some (minimumIRR_apply c r)
  , fun r => some (minimumDuration_apply c r)
  , fun r => some (maximumDuration_apply c r)
  , fun r => some (debtorDicom_apply c r)
  , fun r => some (borrowerDicom_apply c r)
  , fun r => some (minimumCreditsRequested_apply c r)
  , fun r => some (minimumAmountRequested_apply c r)
  , fun r => some (borrowerMaximumAverageDaysDelinquent_apply c r)
  , fun r => some (borrowerMinimumPaidInTime_apply c r)
  , fun r => debtorMinimumPaidInTime_apply c r ]

/-- Modelled from the spec: the catalog with the debtor paid-in-time filter
resolved totally per the §4.2 table row. -/
def allFiltersTotal (c : FilterConfiguration) : List (FundingRequest → Bool) :=
  [ creditType_apply c
  , minimumInvestment_apply c
  , minimumScore_apply c
  , minimumMonthlyProfit_apply c
  , minimumIRR_apply c
  , minimumDuration_apply c
  , maximumDuration_apply c
  , debtorDicom_apply c
  , borrowerDicom_apply c
  , minimumCreditsRequested_apply c
  , minimumAmountRequested_apply c
  , borrowerMaximumAverageDaysDelinquent_apply c
  , borrowerMinimumPaidInTime_apply c
  , debtorMinimumPaidInTime_spec c ]

/-- Modelled from the spec: the core's exposed
`evaluate(configuration, fundingRequests) -> subset` (§6); the function called
as `cumplo.filter_funding_requests(funding_requests, configuration)` /
`funding_requests.filter_(...)` by the two routers is not under src/. It runs
the conjunction catalog through `_filter_funding_requests`. -/
def evaluate (c : FilterConfiguration) (rs : List FundingRequest) : List FundingRequest :=
  filter_funding_requests (allFiltersTotal c) rs

/-! ## Multi-configuration dispatch

`src/routers/funding_requests.py` (internal `/filter` endpoint, lines 76-78):
starts from `set()` and unions each configuration's accepted list.

`src/cumplo_spotter/routers/funding_requests/public.py` (lines 39-42): starts
from `set() if user.filters else set(payload)` and unions each configuration's
accepted list. -/

/-- The internal path's promising set: `set()` then
`update(filter_funding_requests(rs, c))` per configuration. -/
def promising_internal (configs : List FilterConfiguration)
    (rs : List FundingRequest) : Finset FundingRequest :=
  configs.foldl (fun acc c => acc ∪ (evaluate c rs).toFinset) ∅

/-- The public path's promising set: the initial set is the whole payload when
the user has no configurations, empty otherwise, then the same union loop. -/
def promising_public (configs : List FilterConfiguration)
    (rs : List FundingRequest) : Finset FundingRequest :=
  configs.foldl (fun acc c => acc ∪ (evaluate c rs).toFinset)
    (if configs.isEmpty then rs.toFinset else ∅)

/-! ## DICOM inference (`CumploFundingRequest._identify_dicom_status`)

The marker lexicon (`DicomMarker` in `cumplo_spotter/utils/constants.py`) is
not under src/; the spec treats it as an external, language-specific lookup
table supplied to the algorithm. We parameterize the function by the marker
table and by the containment predicate `present`, where `present s` embeds the
Python membership test `s in description` on the cleaned description text. -/

/-- Modelled from the spec: the external marker lexicon — single marker
phrases for the both/debtor/borrower-negative cases and phrase lists for the
borrower-positive and single-positive/negative cases, matching how
`_identify_dicom_status` consumes each field. -/
structure DicomMarkers where
  both_true : String
  both_false : String
  debtor_true : String
  borrower_false : String
  borrower_true : List String
  single_false : List String
  single_true : List String

/-- `_identify_dicom_status`, translated statement by statement: the two early
returns, then the sequential (re)assignments of `debtor_dicom` and
`borrower_dicom`, including the trailing `if`/`elif` pair guarded by
`borrower_dicom is None`. Returns `(debtor_dicom, borrower_dicom)`. -/
def identify_dicom_status (m : DicomMarkers) (present : String → Bool) :
    Option Bool × Option Bool :=
  if present m.both_true then (some true, some true)
  else if present m.both_false then (some false, some false)
  else
    let debtor_dicom : Option Bool := if present m.debtor_true then some true else none
    let b1 : Option Bool := if m.borrower_true.any present then some true else none
    let b2 : Option Bool := if present m.borrower_false then some false else b1
    let b3 : Option Bool :=
      if b2.isNone && m.single_false.any present then some false
      else if b2.isNone && m.single_true.any present then some true
      else b2
    (debtor_dicom, b3)

/-! ## Normalization validators (`CumploFundingRequest`) -/

/-- Upstream raw credit-type values (`CumploCreditType`, a 5-valued string
enumeration). -/
def upstreamCreditTypes : List String :=
  ["irrigation", "balloon", "invoice", "bullet", "simple"]

/-- `credit_type_validator`: the lookup
`CREDIT_TYPE_TRANSLATIONS[value]` on the raw upstream string. A key outside
the 5-entry table raises `KeyError` (a hard validation error), embedded as
`none`. -/
def credit_type_validator (value : String) : Option CreditType :=
  if value = "irrigation" then some .state_subsidy
  else if value = "simple" then some .working_capital
  else if value = "balloon" then some .bullet_loan
  else if value = "bullet" then some .bullet_loan
  else if value = "invoice" then some .factoring
  else none

/-- Round-half-to-even to the nearest integer (the mode Python's
`round(Decimal, 2)` quantizes with). -/
def roundHalfEven (x : ℚ) : ℤ :=
  if x - ⌊x⌋ < 1 / 2 then ⌊x⌋
  else if (1 : ℚ) / 2 < x - ⌊x⌋ then ⌊x⌋ + 1
  else if ⌊x⌋ % 2 = 0 then ⌊x⌋ else ⌊x⌋ + 1

/-- Round to 2 decimal places, half to even. -/
def roundTo2 (x : ℚ) : ℚ := (roundHalfEven (x * 100) : ℚ) / 100

/-- `funded_percentage_validator`: `round(Decimal(int(value) / 100), 2)`.
Embedded over exact rationals: for an integer raw value the float division
`int(value) / 100` is within a relative 2⁻⁵³ of the exact quotient, so
quantizing to 2 decimal places recovers exactly the rational `value / 100`
(which already has at most 2 decimal digits). -/
def funded_percentage_validator (value : ℤ) : ℚ :=
  roundTo2 ((value : ℚ) / 100)

/-! ## Raw-data preprocessing (`_preprocess_data` / `_set_dicom_status`)

The `model_validator(mode="before")` hook runs on the raw dict before typed
validation: it writes the inferred borrower DICOM flag onto
`data["solicitante"]` and the inferred debtor DICOM flag onto every entry of
`data["pagadores"]`. We embed the raw dicts structurally: each raw party
carries its (possibly absent) `dicom` entry plus an opaque remainder standing
for all its other key-value pairs, and the raw request carries the
containment predicate of the cleaned `solicitante` description. -/

/-- A raw party dict (`solicitante` or one entry of `pagadores`): its `dicom`
entry and the rest of its payload, untouched by preprocessing. -/
structure RawParty where
  dicom : Option Bool
  payload : ℕ

/-- The raw funding-request dict before validation. `present` is the
membership test on `clean_text(data["solicitante"]["descripcion"])`. -/
structure RawData where
  present : String → Bool
  solicitante : RawParty
  pagadores : List RawParty
  payload : ℕ

/-- `CumploFundingRequest._set_dicom_status`: writes the inferred flags onto
the raw borrower and every raw debtor. -/
def set_dicom_status (m : DicomMarkers) (d : RawData) : RawData :=
  let st := identify_dicom_status m d.present
  { d with
    solicitante := { d.solicitante with dicom := st.2 }
    pagadores := d.pagadores.map fun p => { p with dicom := st.1 } }

/-- `CumploFundingRequest._preprocess_data`, the `mode="before"` validator:
formats the raw data (sets the DICOM status) and returns it, before any typed
validation runs. -/
def preprocess_data (m : DicomMarkers) (d : RawData) : RawData :=
  set_dicom_status m d

/-! ## Enrichment (`gather_full_funding_requests`, `src/integrations/cumplo.py`)

The enrichment loop zips the already-constructed funding requests with the
fetched credit histories and assigns
`funding_request.borrower.history = credit_history` on each — an in-place
mutation of constructed requests, embedded as a pure update. The
first-generation models it operates on (`models/funding_request.py`,
`models/borrower.py`) are not under src/. -/

/-- Modelled from the spec: the credit-history record scraped by
`get_credit_history` (§6's enrichment fields). -/
structure CreditHistory where
  average_deliquent_days : String
  paid_in_time : String
  dicom : Bool
deriving DecidableEq, Repr

/-- Modelled from the spec: the first-generation borrower with its mutable
`history` slot (absent until enrichment) and the rest of its fields. -/
structure ScraperBorrower where
  history : Option CreditHistory
  payload : ℕ
deriving DecidableEq, Repr

/-- Modelled from the spec: the first-generation funding request consumed by
`gather_full_funding_requests`. -/
structure ScraperFundingRequest where
  id : ℕ
  monthly_profit_rate : ℚ
  borrower : ScraperBorrower
deriving DecidableEq, Repr

/-- One loop iteration of the enrichment: the assignment
`funding_request.borrower.history = credit_history`. -/
def set_history (r : ScraperFundingRequest) (h : CreditHistory) : ScraperFundingRequest :=
  { r with borrower := { r.borrower with history := some h } }

/-- `gather_full_funding_requests` as a pure state transformation: the
requests paired by `zip` get their borrower's history assigned, the remainder
(when fewer histories than requests arrive) is returned unchanged, and the
same list object is returned. -/
def gather_full_funding_requests (rs : List ScraperFundingRequest)
    (hs : List CreditHistory) : List ScraperFundingRequest :=
  List.zipWith set_history rs hs ++ rs.drop hs.length

/-! ## Concrete sample data used by witnesses and counterexamples -/

/-- A portfolio with data present. -/
def samplePortfolio : Portfolio := ⟨10, 1000, some 80⟩

/-- A borrower with an unknown DICOM flag and no delinquency signal. -/
def sampleBorrower : Borrower := ⟨none, none, samplePortfolio⟩

/-- A debtor with an unknown DICOM flag. -/
def sampleDebtor : Debtor := ⟨none, samplePortfolio⟩

/-- A well-typed funding request with no DICOM-flagged party. -/
def sampleRequest : FundingRequest :=
  ⟨1, 5, 12, 2, 100000, .factoring, ⟨.day, 45⟩, 1, sampleBorrower, [sampleDebtor]⟩

/-- A debtor carrying a positive DICOM flag. -/
def dicomDebtor : Debtor := ⟨some true, samplePortfolio⟩

/-- A funding request whose only debtor is DICOM-flagged. -/
def dicomFlaggedRequest : FundingRequest :=
  ⟨2, 5, 12, 2, 100000, .factoring, ⟨.day, 45⟩, 1, sampleBorrower, [dicomDebtor]⟩

/-- A portfolio with activity but a null `paid_in_time`. -/
def nullSignalPortfolio : Portfolio := ⟨7, 500, none⟩

/-- A borrower with every nullable signal null. -/
def nullSignalBorrower : Borrower := ⟨none, none, nullSignalPortfolio⟩

/-- A debtor whose `paid_in_time` is null. -/
def nullSignalDebtor : Debtor := ⟨none, nullSignalPortfolio⟩

/-- A funding request whose borrower signals and every debtor `paid_in_time`
are null. -/
def nullSignalRequest : FundingRequest :=
  ⟨3, 5, 12, 2, 100000, .factoring, ⟨.day, 45⟩, 1, nullSignalBorrower, [nullSignalDebtor]⟩

/-- A configuration whose only constraint is the debtor minimum paid-in-time
percentage. -/
def debtorThresholdConfig : FilterConfiguration :=
  ⟨none, none, none, none, none, none, none, none, none, none, none, some 50, false, false⟩

/-! ## Claims -/

/-- C1: for every list of filters and every funding request, the filter-set
evaluation accepts the request iff every filter's apply returns true on it
(logical conjunction); a request failing any single filter is excluded; and
the accepted set does not depend on the order of the filters. -/
theorem C1_filter_conjunction
    (fs fs' : List (FundingRequest → Bool)) (rs : List FundingRequest)
    (r : FundingRequest) (hperm : fs.Perm fs') :
    (r ∈ filter_funding_requests fs rs ↔ r ∈ rs ∧ ∀ f ∈ fs, f r = true)
    ∧ ((∃ f ∈ fs, f r = false) → r ∉ filter_funding_requests fs rs)
    ∧ filter_funding_requests fs rs = filter_funding_requests fs' rs := by
  have hmem : r ∈ filter_funding_requests fs rs ↔ r ∈ rs ∧ ∀ f ∈ fs, f r = true := by
    simp [filter_funding_requests, List.mem_filter, List.all_eq_true]
  refine ⟨hmem, ?_, ?_⟩
  · rintro ⟨f, hf, hfr⟩ hr
    have htrue := (hmem.mp hr).2 f hf
    rw [htrue] at hfr
    exact Bool.noConfusion hfr
  · apply List.filter_congr
    intro x _
    rw [Bool.eq_iff_iff, List.all_eq_true, List.all_eq_true]
    constructor
    · intro h f hf
      exact h f (hperm.mem_iff.mpr hf)
    · intro h f hf
      exact h f (hperm.mem_iff.mp hf)

/-- Witness for C1: a concrete two-filter set applied in both orders to a
concrete request yields the same result. -/
theorem C1_filter_conjunction_witness :
    filter_funding_requests
        [minimumScore_apply configUnset, debtorDicom_apply configUnset] [sampleRequest]
      = filter_funding_requests
        [debtorDicom_apply configUnset, minimumScore_apply configUnset] [sampleRequest] :=
  (C1_filter_conjunction
      [minimumScore_apply configUnset, debtorDicom_apply configUnset]
      [debtorDicom_apply configUnset, minimumScore_apply configUnset]
      [sampleRequest] sampleRequest
      (List.Perm.swap (debtorDicom_apply configUnset) (minimumScore_apply configUnset) [])).2.2

/-- C10: the filter-set evaluation returns a subsequence of its input — every
returned request occurs in the input, relative order is preserved, and no
request is duplicated or newly introduced (the count of each request never
increases). The evaluation is a pure function building a fresh list, so the
input list itself is untouched. -/
theorem C10_filter_returns_subsequence
    (fs : List (FundingRequest → Bool)) (rs : List FundingRequest) :
    (filter_funding_requests fs rs).Sublist rs
    ∧ (∀ r ∈ filter_funding_requests fs rs, r ∈ rs)
    ∧ (∀ r : FundingRequest, (filter_funding_requests fs rs).count r ≤ rs.count r) := by
  have hs : (filter_funding_requests fs rs).Sublist rs := List.filter_sublist rs
  exact ⟨hs, fun r hr => hs.subset hr, fun r => hs.count_le r⟩

/-- C6: the credit-type normalization maps each of the 5 upstream values by
the fixed translation (irrigation→state_subsidy, simple→working_capital,
balloon→bullet_loan, bullet→bullet_loan, invoice→factoring), always landing in
the 4-value canonical taxonomy, and rejects (hard validation error, embedded
as `none`) every upstream value outside these 5. -/
theorem C6_credit_type_mapping :
    credit_type_validator "irrigation" = some CreditType.state_subsidy
    ∧ credit_type_validator "simple" = some CreditType.working_capital
    ∧ credit_type_validator "balloon" = some CreditType.bullet_loan
    ∧ credit_type_validator "bullet" = some CreditType.bullet_loan
    ∧ credit_type_validator "invoice" = some CreditType.factoring
    ∧ (∀ s : String, s ∉ upstreamCreditTypes → credit_type_validator s = none) := by
  refine ⟨rfl, rfl, rfl, rfl, rfl, ?_⟩
  intro s hs
  simp only [upstreamCreditTypes, List.mem_cons, List.not_mem_nil, or_false] at hs
  push_neg at hs
  obtain ⟨h1, h2, h3, h4, h5⟩ := hs
  simp [credit_type_validator, h1, h2, h3, h4, h5]

/-- Witness for C6: a concrete unknown upstream value is rejected. -/
theorem C6_credit_type_mapping_witness : credit_type_validator "mortgage" = none :=
  C6_credit_type_mapping.2.2.2.2.2 "mortgage" (by decide)

/-- Helper: on every integer raw value, `funded_percentage_validator` is
exactly division by 100 — the quotient already has at most two decimal
digits, so the 2-decimal rounding is the identity on it. -/
theorem funded_percentage_validator_eq (v : ℤ) :
    funded_percentage_validator v = (v : ℚ) / 100 := by
  unfold funded_percentage_validator roundTo2 roundHalfEven
  have h1 : (v : ℚ) / 100 * 100 = (v : ℚ) := by field_simp
  rw [h1]
  have h2 : ⌊(v : ℚ)⌋ = v := Int.floor_intCast v
  rw [h2]
  simp

/-- Counterexample for C7: the raw integer percentage 5000 normalizes to 50,
not to 0.50, and the result lies outside [0,1]; raw 3333 normalizes to 33.33,
not to 0.33. -/
theorem C7_counterexample :
    funded_percentage_validator 5000 = 50
    ∧ funded_percentage_validator 5000 ≠ 1 / 2
    ∧ ¬ funded_percentage_validator 5000 ≤ 1
    ∧ funded_percentage_validator 3333 = 3333 / 100
    ∧ funded_percentage_validator 3333 ≠ 33 / 100 := by
  rw [funded_percentage_validator_eq, funded_percentage_validator_eq]
  norm_num

/-- C7 amended: the normalized `funded_percentage` equals the raw integer
value divided by 100 and rounded to 2 decimal places (which is exactly the
value divided by 100), and it lies in [0,1] exactly when the raw value lies in
[0,100]; in particular raw 50 yields 0.50 and raw 33 yields 0.33, while raw
5000 yields 50 and raw 3333 yields 33.33. -/
theorem C7_funded_percentage_amended (v : ℤ) :
    funded_percentage_validator v = roundTo2 ((v : ℚ) / 100)
    ∧ funded_percentage_validator v = (v : ℚ) / 100
    ∧ ((0 ≤ funded_percentage_validator v ∧ funded_percentage_validator v ≤ 1)
        ↔ (0 ≤ v ∧ v ≤ 100))
    ∧ funded_percentage_validator 50 = 1 / 2
    ∧ funded_percentage_validator 33 = 33 / 100 := by
  have key := funded_percentage_validator_eq v
  refine ⟨rfl, key, ?_, ?_, ?_⟩
  · rw [key]
    have h100 : (0 : ℚ) < 100 := by norm_num
    rw [div_le_one h100, le_div_iff₀ h100, zero_mul]
    constructor
    · intro h
      exact ⟨by exact_mod_cast h.1, by exact_mod_cast h.2⟩
    · intro h
      exact ⟨by exact_mod_cast h.1, by exact_mod_cast h.2⟩
  · rw [funded_percentage_validator_eq]
    norm_num
  · rw [funded_percentage_validator_eq]
    norm_num

/-- Witness for C7 amended: instantiated at raw value 50, whose normalized
percentage lies in [0,1]. -/
theorem C7_funded_percentage_amended_witness :
    0 ≤ funded_percentage_validator 50 ∧ funded_percentage_validator 50 ≤ 1 :=
  (C7_funded_percentage_amended 50).2.2.1.mpr (by norm_num)

/-- A marker table with pairwise distinct marker phrases, used to exercise the
DICOM inference on conflicting descriptions. -/
def conflictMarkers : DicomMarkers :=
  ⟨"BT", "BF", "DT", "BN", ["BP"], ["SN"], ["SP"]⟩

/-- The containment predicate of a description holding both a
borrower-positive and a borrower-negative marker, and nothing else. -/
def conflictPresent : String → Bool :=
  fun s => s == "BP" || s == "BN"

/-- Counterexample for C4: on a description containing a borrower-positive
marker together with the borrower-negative marker (and no both-markers), the
code yields borrower_dicom = false — the borrower-negative branch is a plain
`if`, not the claim's "only when no borrower-positive marker matched". -/
theorem C4_counterexample :
    conflictMarkers.borrower_true.any conflictPresent = true
    ∧ conflictPresent conflictMarkers.both_true = false
    ∧ conflictPresent conflictMarkers.both_false = false
    ∧ (identify_dicom_status conflictMarkers conflictPresent).2 = some false := by
  refine ⟨rfl, rfl, rfl, rfl⟩

/-- C4 amended: DICOM inference is a pure function of the marker-containment
predicate of the normalized description, evaluated in strict priority order: a
both-positive marker yields (true, true) regardless of any other markers;
otherwise a both-negative marker yields (false, false); otherwise a
debtor-positive marker sets debtor_dicom = true, a borrower-negative marker
sets borrower_dicom = false (overriding any matched borrower-positive marker),
else borrower-positive markers set borrower_dicom = true, then
single-negative and single-positive markers apply in that order only while
borrower_dicom is still unknown, and every unmatched field remains unknown. -/
theorem C4_dicom_priority_amended (m : DicomMarkers) (present : String → Bool) :
    identify_dicom_status m present =
      if present m.both_true then (some true, some true)
      else if present m.both_false then (some false, some false)
      else
        ((if present m.debtor_true then some true else none),
         if present m.borrower_false then some false
         else if m.borrower_true.any present then some true
         else if m.single_false.any present then some false
         else if m.single_true.any present then some true
         else none) := by
  unfold identify_dicom_status
  cases hbt : present m.both_true <;>
    cases hbf : present m.both_false <;>
      cases hbneg : present m.borrower_false <;>
        cases hbpos : m.borrower_true.any present <;>
          cases hsf : m.single_false.any present <;>
            cases hst : m.single_true.any present <;>
              simp [hbt, hbf, hbneg, hbpos, hsf, hst]

/-- The 11 purely threshold-based filters of the catalog (all but the two
DICOM filters and the debtor paid-in-time filter), partially applied to a
configuration. -/
def thresholdFilters (c : FilterConfiguration) : List (FundingRequest → Bool) :=
  [ creditType_apply c
  , minimumInvestment_apply c
  , minimumScore_apply c
  , minimumMonthlyProfit_apply c
  , minimumIRR_apply c
  , minimumDuration_apply c
  , maximumDuration_apply c
  , minimumCreditsRequested_apply c
  , minimumAmountRequested_apply c
  , borrowerMaximumAverageDaysDelinquent_apply c
  , borrowerMinimumPaidInTime_apply c ]

/-- A request none of whose parties carries a positive DICOM flag. -/
def dicomClear (r : FundingRequest) : Prop :=
  r.borrower.dicom ≠ some true ∧ ∀ d ∈ r.debtors, d.dicom ≠ some true

/-- Helper: a filter returning `some true` lets the conjunction move on. -/
theorem apply_all_cons_true {fs : List (FundingRequest → Option Bool)}
    {f : FundingRequest → Option Bool} {x : FundingRequest} (h : f x = some true) :
    apply_all (f :: fs) x = apply_all fs x := by
  simp [apply_all, h]

/-- Helper: a filter raising (`none`) makes the whole conjunction raise. -/
theorem apply_all_cons_none {fs : List (FundingRequest → Option Bool)}
    {f : FundingRequest → Option Bool} {x : FundingRequest} (h : f x = none) :
    apply_all (f :: fs) x = none := by
  simp [apply_all, h]

/-- Counterexample for C3: with every threshold unset — hence the two unset
ignore-DICOM toggles are false — the DebtorDicom filter still rejects a
request whose debtor is DICOM-flagged, so not all 14 predicates return true
and the filter set is not the identity. -/
theorem C3_counterexample :
    debtorDicom_apply configUnset dicomFlaggedRequest = false
    ∧ evaluate configUnset [dicomFlaggedRequest] = [] := ⟨rfl, rfl⟩

/-- C3 amended: with every threshold unset, the 11 threshold filters return
true on every request and the debtor paid-in-time filter passes without
reaching its singular-debtor access; the two DICOM filters, left active by
their unset ignore-toggles, return true exactly when no debtor (respectively
not the borrower) has dicom = true; consequently, on every list of
DICOM-clear requests the filter set returns the full input unchanged, with no
error raised. -/
theorem C3_unset_identity_amended (r : FundingRequest) (rs : List FundingRequest) :
    (∀ f ∈ thresholdFilters configUnset, f r = true)
    ∧ debtorMinimumPaidInTime_apply configUnset r = some true
    ∧ (debtorDicom_apply configUnset r = true ↔ ∀ d ∈ r.debtors, d.dicom ≠ some true)
    ∧ (borrowerDicom_apply configUnset r = true ↔ r.borrower.dicom ≠ some true)
    ∧ ((∀ x ∈ rs, dicomClear x) →
        evaluate configUnset rs = rs
        ∧ filter_funding_requests_checked (allFilters configUnset) rs = some rs) := by
  have hthreshold : ∀ x : FundingRequest, ∀ f ∈ thresholdFilters configUnset, f x = true := by
    intro x f hf
    simp only [thresholdFilters, List.mem_cons, List.not_mem_nil, or_false] at hf
    rcases hf with h | h | h | h | h | h | h | h | h | h | h <;> subst h <;> rfl
  have hdd_iff : ∀ x : FundingRequest,
      (debtorDicom_apply configUnset x = true ↔ ∀ d ∈ x.debtors, d.dicom ≠ some true) := by
    intro x
    simp [debtorDicom_apply, configUnset, List.any_eq_false]
  have hbd_iff : ∀ x : FundingRequest,
      (borrowerDicom_apply configUnset x = true ↔ x.borrower.dicom ≠ some true) := by
    intro x
    simp [borrowerDicom_apply, configUnset]
  have hdicom : ∀ x : FundingRequest, dicomClear x →
      debtorDicom_apply configUnset x = true ∧ borrowerDicom_apply configUnset x = true := by
    intro x hx
    exact ⟨(hdd_iff x).mpr hx.2, (hbd_iff x).mpr hx.1⟩
  refine ⟨hthreshold r, rfl, hdd_iff r, hbd_iff r, ?_⟩
  intro hall
  have e1 : ∀ y : FundingRequest, creditType_apply configUnset y = true := fun _ => rfl
  have e2 : ∀ y : FundingRequest, minimumInvestment_apply configUnset y = true := fun _ => rfl
  have e3 : ∀ y : FundingRequest, minimumScore_apply configUnset y = true := fun _ => rfl
  have e4 : ∀ y : FundingRequest, minimumMonthlyProfit_apply configUnset y = true := fun _ => rfl
  have e5 : ∀ y : FundingRequest, minimumIRR_apply configUnset y = true := fun _ => rfl
  have e6 : ∀ y : FundingRequest, minimumDuration_apply configUnset y = true := fun _ => rfl
  have e7 : ∀ y : FundingRequest, maximumDuration_apply configUnset y = true := fun _ => rfl
  have e8 : ∀ y : FundingRequest, minimumCreditsRequested_apply configUnset y = true :=
    fun _ => rfl
  have e9 : ∀ y : FundingRequest, minimumAmountRequested_apply configUnset y = true :=
    fun _ => rfl
  have e10 : ∀ y : FundingRequest,
      borrowerMaximumAverageDaysDelinquent_apply configUnset y = true := fun _ => rfl
  have e11 : ∀ y : FundingRequest, borrowerMinimumPaidInTime_apply configUnset y = true :=
    fun _ => rfl
  have espec : ∀ y : FundingRequest, debtorMinimumPaidInTime_spec configUnset y = true :=
    fun _ => rfl
  have happly_total : ∀ x ∈ rs, ((allFiltersTotal configUnset).all fun f => f x) = true := by
    intro x hx
    obtain ⟨hdd, hbd⟩ := hdicom x (hall x hx)
    simp [allFiltersTotal, e1, e2, e3, e4, e5, e6, e7, e8, e9, e10, e11, espec, hdd, hbd]
  have happly_checked : ∀ x, dicomClear x →
      apply_all (allFilters configUnset) x = some true := by
    intro x hx
    obtain ⟨hdd, hbd⟩ := hdicom x hx
    unfold allFilters
    rw [apply_all_cons_true rfl, apply_all_cons_true rfl, apply_all_cons_true rfl,
      apply_all_cons_true rfl, apply_all_cons_true rfl, apply_all_cons_true rfl,
      apply_all_cons_true rfl, apply_all_cons_true (by simp [hdd]),
      apply_all_cons_true (by simp [hbd]), apply_all_cons_true rfl, apply_all_cons_true rfl,
      apply_all_cons_true rfl, apply_all_cons_true rfl, apply_all_cons_true rfl]
    rfl
  constructor
  · exact List.filter_eq_self.mpr happly_total
  · clear happly_total
    induction rs with
    | nil => rfl
    | cons r0 rest ih =>
      have h0 : apply_all (allFilters configUnset) r0 =
          some true := happly_checked r0 (hall r0 (by simp))
      have hrest : filter_funding_requests_checked (allFilters configUnset) rest =
          some rest := ih fun x hx => hall x (by simp [hx])
      simp [filter_funding_requests_checked, h0, hrest]

/-- Witness for C3 amended: the unset configuration leaves a concrete
DICOM-clear request list untouched and raises no error. -/
theorem C3_unset_identity_amended_witness :
    evaluate configUnset [sampleRequest] = [sampleRequest]
    ∧ filter_funding_requests_checked (allFilters configUnset) [sampleRequest]
      = some [sampleRequest] :=
  (C3_unset_identity_amended sampleRequest [sampleRequest]).2.2.2.2 (by
    intro x hx
    rw [List.mem_singleton] at hx
    subst hx
    constructor
    · intro hcon
      simp [sampleRequest, sampleBorrower] at hcon
    · intro d hd hcon
      simp [sampleRequest] at hd
      subst hd
      simp [sampleDebtor] at hcon)

/-- Counterexample for C5: with the debtor minimum paid-in-time threshold
configured and every debtor's `paid_in_time` null, the DebtorMinimumPaidInTime
filter does not pass the request — its faithful embedding errors before the
debtor loop, and with the singular-debtor access resolved to the portfolio
data (7 total requests) it returns false, rejecting the request. -/
theorem C5_counterexample :
    (∀ d ∈ nullSignalRequest.debtors, d.portfolio.paid_in_time = none)
    ∧ debtorMinimumPaidInTime_apply debtorThresholdConfig nullSignalRequest ≠ some true
    ∧ debtorMinimumPaidInTime_core debtorThresholdConfig 7 nullSignalRequest = false := by
  refine ⟨?_, ?_, ?_⟩
  · intro d hd
    simp only [nullSignalRequest, List.mem_singleton] at hd
    subst hd
    rfl
  · intro hcon
    norm_num [debtorMinimumPaidInTime_apply, debtorThresholdConfig] at hcon
    exact Option.noConfusion hcon
  · norm_num [debtorMinimumPaidInTime_core, debtorThresholdConfig, nullSignalRequest,
      nullSignalDebtor, nullSignalPortfolio]

/-- C5 amended: with its threshold configured, a null borrower
`average_days_delinquent` or a null borrower `paid_in_time` never causes the
corresponding borrower filter to return false — both pass; the
DebtorMinimumPaidInTime filter, however, does not pass a request whose debtors
all have null `paid_in_time`: its evaluation errors at the singular-debtor
access, and with that access resolved to any nonzero debtor total-requests
count it returns false. -/
theorem C5_null_signals_amended (c : FilterConfiguration) (r : FundingRequest) :
    (r.borrower.average_days_delinquent = none →
      borrowerMaximumAverageDaysDelinquent_apply c r = true)
    ∧ (r.borrower.portfolio.paid_in_time = none →
      borrowerMinimumPaidInTime_apply c r = true)
    ∧ (∀ q : ℚ, c.debtor_minimum_paid_in_time = some q → q ≠ 0 →
        debtorMinimumPaidInTime_apply c r = none
        ∧ ∀ t : ℕ, t ≠ 0 → (∀ d ∈ r.debtors, d.portfolio.paid_in_time = none) →
            debtorMinimumPaidInTime_core c t r = false) := by
  refine ⟨?_, ?_, ?_⟩
  · intro h
    rcases hc : c.maximum_average_days_delinquent with _ | m <;>
      simp [borrowerMaximumAverageDaysDelinquent_apply, hc, h]
  · intro h
    rcases hc : c.borrower_minimum_paid_in_time with _ | m <;>
      simp [borrowerMinimumPaidInTime_apply, hc, h]
  · intro q hq hq0
    constructor
    · simp [debtorMinimumPaidInTime_apply, hq, hq0]
    · intro t ht hnull
      simp only [debtorMinimumPaidInTime_core, hq, hq0, ht, if_false, List.any_eq_false]
      intro d hd
      simp [hnull d hd]

/-- Witness for C5 amended: instantiated at the concrete threshold
configuration and all-null request. -/
theorem C5_null_signals_amended_witness :
    borrowerMaximumAverageDaysDelinquent_apply debtorThresholdConfig nullSignalRequest = true
    ∧ borrowerMinimumPaidInTime_apply debtorThresholdConfig nullSignalRequest = true
    ∧ debtorMinimumPaidInTime_apply debtorThresholdConfig nullSignalRequest = none
    ∧ debtorMinimumPaidInTime_core debtorThresholdConfig 7 nullSignalRequest = false := by
  have h := C5_null_signals_amended debtorThresholdConfig nullSignalRequest
  have hdeb := h.2.2 50 rfl (by norm_num)
  refine ⟨h.1 rfl, h.2.1 rfl, hdeb.1, hdeb.2 7 (by norm_num) ?_⟩
  intro d hd
  simp only [nullSignalRequest, List.mem_singleton] at hd
  subst hd
  rfl

/-- C8 (code-bug evidence): with the debtor minimum paid-in-time threshold
configured, `DebtorMinimumPaidInTimeFilter.apply` reads the singular
`funding_request.debtor`, which the §3 FundingRequest (carrying only the list
`debtors`) does not define — the filter errors on a well-typed request, and
the filter-set conjunction errors with it instead of returning a boolean. -/
theorem C8_debtor_filter_not_total :
    debtorMinimumPaidInTime_apply debtorThresholdConfig sampleRequest = none
    ∧ apply_all (allFilters debtorThresholdConfig) sampleRequest = none
    ∧ filter_funding_requests_checked (allFilters debtorThresholdConfig) [sampleRequest]
      = none := by
  have h1 : debtorMinimumPaidInTime_apply debtorThresholdConfig sampleRequest = none := by
    norm_num [debtorMinimumPaidInTime_apply, debtorThresholdConfig]
  have h2 : apply_all (allFilters debtorThresholdConfig) sampleRequest = none := by
    unfold allFilters
    rw [apply_all_cons_true rfl, apply_all_cons_true rfl, apply_all_cons_true rfl,
      apply_all_cons_true rfl, apply_all_cons_true rfl, apply_all_cons_true rfl,
      apply_all_cons_true rfl, apply_all_cons_true rfl, apply_all_cons_true rfl,
      apply_all_cons_true rfl, apply_all_cons_true rfl, apply_all_cons_true rfl,
      apply_all_cons_true rfl]
    exact apply_all_cons_none h1
  refine ⟨h1, h2, ?_⟩
  simp [filter_funding_requests_checked, h2]

/-- Helper: membership in the configuration fold of `set.update` steps. -/
theorem mem_foldl_union (configs : List FilterConfiguration) (rs : List FundingRequest)
    (init : Finset FundingRequest) (r : FundingRequest) :
    (r ∈ configs.foldl (fun acc c => acc ∪ (evaluate c rs).toFinset) init
      ↔ r ∈ init ∨ ∃ c ∈ configs, r ∈ evaluate c rs) := by
  induction configs generalizing init with
  | nil => simp
  | cons c0 cs ih =>
    rw [List.foldl_cons, ih]
    simp [Finset.mem_union, List.mem_toFinset, exists_eq_or_imp, or_assoc]

/-- Counterexample for C2: a user with zero configurations and a nonempty
batch receives the whole batch from the public entry point — not the union
over no configurations (the empty set), which the internal entry point
returns. -/
theorem C2_counterexample :
    promising_internal [] [sampleRequest] = ∅
    ∧ promising_public [] [sampleRequest] ≠ ∅
    ∧ sampleRequest ∈ promising_public [] [sampleRequest] := by
  have hpub : promising_public [] [sampleRequest] = ([sampleRequest] : List _).toFinset := rfl
  refine ⟨rfl, ?_, ?_⟩
  · rw [hpub]
    simp
  · rw [hpub]
    simp

/-- C2 amended: for every user with at least one configuration and every
batch, both entry points agree and the promising set is exactly the set union
over the configurations of the requests each accepts, deduplicated by request
identity; for a user with zero configurations the internal entry point returns
the empty set while the public entry point returns the full batch. -/
theorem C2_union_amended (configs : List FilterConfiguration) (rs : List FundingRequest) :
    (∀ r : FundingRequest,
      r ∈ promising_internal configs rs ↔ ∃ c ∈ configs, r ∈ evaluate c rs)
    ∧ (configs ≠ [] → promising_public configs rs = promising_internal configs rs)
    ∧ (configs = [] →
        promising_internal configs rs = ∅ ∧ promising_public configs rs = rs.toFinset) := by
  refine ⟨?_, ?_, ?_⟩
  · intro r
    rw [promising_internal, mem_foldl_union]
    simp
  · intro h
    cases configs with
    | nil => exact absurd rfl h
    | cons c0 cs => rfl
  · intro h
    subst h
    exact ⟨rfl, rfl⟩

/-- Witness for C2 amended: with one concrete configuration, both entry
points produce the same promising set. -/
theorem C2_union_amended_witness :
    promising_public [configUnset] [sampleRequest]
      = promising_internal [configUnset] [sampleRequest] :=
  (C2_union_amended [configUnset] [sampleRequest]).2.1 (by simp)

/-- A concrete scraped credit history. -/
def sampleHistory : CreditHistory := ⟨"30", "80", false⟩

/-- A first-generation funding request before enrichment (no history yet). -/
def scraperRequest : ScraperFundingRequest := ⟨1, 2, ⟨none, 0⟩⟩

/-- Counterexample for C9: the enrichment step modifies an already-constructed
funding request — after `gather_full_funding_requests` the request's borrower
carries the fetched credit history, so the output list differs from the input
list. -/
theorem C9_counterexample :
    gather_full_funding_requests [scraperRequest] [sampleHistory] ≠ [scraperRequest]
    ∧ (gather_full_funding_requests [scraperRequest] [sampleHistory]).map
        (fun r => r.borrower.history) = [some sampleHistory] := by
  constructor
  · intro hcon
    have hhead : set_history scraperRequest sampleHistory = scraperRequest := by
      have h1 : gather_full_funding_requests [scraperRequest] [sampleHistory]
          = [set_history scraperRequest sampleHistory] := rfl
      rw [h1] at hcon
      exact (List.cons.injEq _ _ _ _ ▸ hcon).1
    have h3 := congrArg (fun r => r.borrower.history) hhead
    simp [set_history, scraperRequest] at h3
  · rfl

/-- C9 amended: the derived DICOM flags are written onto the raw borrower and
debtor data by the before-validation hook, which changes nothing else in the
raw record; but the constructed FundingRequest is not immutable afterward —
the enrichment step mutates each request zipped with a fetched history,
changing exactly the borrower's credit history and leaving every other field
intact. -/
theorem C9_construction_and_enrichment_amended (m : DicomMarkers) (d : RawData)
    (rs : List ScraperFundingRequest) (hs : List CreditHistory)
    (hlen : rs.length = hs.length) :
    ((preprocess_data m d).solicitante.dicom = (identify_dicom_status m d.present).2
      ∧ (preprocess_data m d).solicitante.payload = d.solicitante.payload
      ∧ (preprocess_data m d).pagadores.map RawParty.dicom
          = d.pagadores.map (fun _ => (identify_dicom_status m d.present).1)
      ∧ (preprocess_data m d).pagadores.map RawParty.payload
          = d.pagadores.map RawParty.payload
      ∧ (preprocess_data m d).payload = d.payload)
    ∧ gather_full_funding_requests rs hs = List.zipWith set_history rs hs
    ∧ (∀ (r : ScraperFundingRequest) (h : CreditHistory),
        (set_history r h).borrower.history = some h
        ∧ (set_history r h).id = r.id
        ∧ (set_history r h).monthly_profit_rate = r.monthly_profit_rate
        ∧ (set_history r h).borrower.payload = r.borrower.payload) := by
  refine ⟨⟨rfl, rfl, ?_, ?_, rfl⟩, ?_, fun r h => ⟨rfl, rfl, rfl, rfl⟩⟩
  · simp [preprocess_data, set_dicom_status, Function.comp_def]
  · simp [preprocess_data, set_dicom_status, Function.comp_def]
  · unfold gather_full_funding_requests
    rw [← hlen, List.drop_length, List.append_nil]

/-- Witness for C9 amended: a concrete one-element enrichment batch. -/
theorem C9_construction_and_enrichment_amended_witness :
    gather_full_funding_requests [scraperRequest] [sampleHistory]
      = List.zipWith set_history [scraperRequest] [sampleHistory] :=
  (C9_construction_and_enrichment_amended conflictMarkers
    ⟨fun _ => false, ⟨none, 0⟩, [], 0⟩ [scraperRequest] [sampleHistory] rfl).2.1

end CumploSpotter
